import Mathlib

/-!
Verification of the execution-trace-to-diagnostics pipeline and the
build-result aggregation step of the sampled repository.

The shallow embedding below translates the two relevant source files:
the stack-trace encoder (encodeSolidityStackTrace, encodeStackTraceEntry,
sourceReferenceToSolidityCallsite, getMessageFromLastStackTraceEntry,
SolidityError, SolidityCallSite) and the build-result helpers
(throwIfSolidityBuildFailed, getArtifacts, getTestSuiteIds).

Code imported by those files but not part of the repository snapshot
(the ReturnData decoder, the panic-code table, the stack-trace constants,
byte/hex rendering, json file reading, node path helpers) is modelled from
the specification; every such definition carries a doc comment starting
with "Modelled from the spec:".

Machine integers of the source (byte values, panic codes, bigint amounts)
are modelled as Nat: none of the translated code performs arithmetic that
can overflow, so no modular reduction is needed.
-/

/-! ## Bytes and hex rendering -/

/-- Modelled from the spec: one hexadecimal digit, lowercase. -/
def hexDigitChar (n : Nat) : Char :=
  if n < 10 then Char.ofNat (48 + n) else Char.ofNat (87 + n)

/-- Modelled from the spec: a byte as two lowercase hexadecimal digits. -/
def byteToHex (b : Nat) : String :=
  String.mk [hexDigitChar (b / 16 % 16), hexDigitChar (b % 16)]

/-- Modelled from the spec: a byte sequence as lowercase hex with no prefix
(what Buffer.toString with the hex encoding produces). -/
def hexOfBytes (bs : List Nat) : String :=
  String.join (bs.map byteToHex)

/-- Modelled from the spec: bytesToHexString of the utils package renders a
byte sequence as lowercase hex prefixed with 0x. -/
def bytesToHexString (bs : List Nat) : String :=
  "0x" ++ hexOfBytes bs

/-- Modelled from the spec: a number in lowercase hexadecimal, no padding. -/
def natToHex (n : Nat) : String :=
  String.mk (Nat.toDigits 16 n)

/-! ## Panic code table (spec section 4.2; panic-errors.js is not under src) -/

/-- Modelled from the spec: the fixed mapping from canonical panic codes to
English descriptions. -/
def panicErrorCodeToReason (errorCode : Nat) : Option String :=
  if errorCode = 0x01 then some "assertion failure"
  else if errorCode = 0x11 then some "arithmetic overflow or underflow"
  else if errorCode = 0x12 then some "division or modulo by zero"
  else if errorCode = 0x21 then some "invalid enum conversion"
  else if errorCode = 0x22 then some "invalid encoded storage byte array"
  else if errorCode = 0x31 then some "pop on an empty array"
  else if errorCode = 0x32 then some "out-of-bounds array access"
  else if errorCode = 0x41 then some "out of memory or oversized allocation"
  else if errorCode = 0x51 then some "call to an uninitialized internal function pointer"
  else none

/-- Modelled from the spec: panicErrorCodeToMessage of panic-errors.js; known
codes render their description, unknown codes render a generic message with
the code in hex rather than failing. -/
def panicErrorCodeToMessage (errorCode : Nat) : String :=
  match panicErrorCodeToReason errorCode with
  | some reason => "reverted with panic code 0x" ++ natToHex errorCode ++ " (" ++ reason ++ ")"
  | none => "reverted with unknown panic code 0x" ++ natToHex errorCode

/-! ## Return-data classifier (spec section 4.1; the ReturnData class comes
from the external execution-engine package, not under src) -/

/-- Modelled from the spec: the 4-byte selector of Error(string). -/
def ERROR_SELECTOR : List Nat := [0x08, 0xc3, 0x79, 0xa0]

/-- Modelled from the spec: the 4-byte selector of Panic(uint256). -/
def PANIC_SELECTOR : List Nat := [0x4e, 0x48, 0x7b, 0x71]

/-- Big-endian interpretation of a byte word. -/
def wordToNat (word : List Nat) : Nat :=
  word.foldl (fun acc b => acc * 256 + b) 0

/-- Modelled from the spec: ABI-decode a payload as a single unsigned
integer; a malformed payload yields none rather than raising. -/
def decodeAbiUint (bytes : List Nat) : Option Nat :=
  if bytes.length < 32 then none
  else some (wordToNat (bytes.take 32))

/-- Modelled from the spec: ABI-decode a payload as a single string (offset
word, then length word, then the data); a malformed payload yields none
rather than raising. -/
def decodeAbiString (bytes : List Nat) : Option String :=
  if bytes.length < 32 then none
  else
    let offset := wordToNat (bytes.take 32)
    if bytes.length < offset + 32 then none
    else
      let len := wordToNat ((bytes.drop offset).take 32)
      if bytes.length < offset + 32 + len then none
      else some (String.mk (((bytes.drop (offset + 32)).take len).map Char.ofNat))

/-- Modelled from the spec: the ReturnData wrapper around a raw byte
payload returned by a failed execution. -/
structure ReturnData where
  value : List Nat
deriving DecidableEq

/-- Modelled from the spec: the payload is an encoded Error(string); per the
spec a payload whose remainder does not decode is treated as unrecognized. -/
def ReturnData.isErrorReturnData (returnData : ReturnData) : Bool :=
  decide (returnData.value.take 4 = ERROR_SELECTOR)
    && (decodeAbiString (returnData.value.drop 4)).isSome

/-- Modelled from the spec: the payload is an encoded Panic(uint256); per the
spec a payload whose remainder does not decode is treated as unrecognized. -/
def ReturnData.isPanicReturnData (returnData : ReturnData) : Bool :=
  decide (returnData.value.take 4 = PANIC_SELECTOR)
    && (decodeAbiUint (returnData.value.drop 4)).isSome

/-- Modelled from the spec: the payload has zero length. -/
def ReturnData.isEmpty (returnData : ReturnData) : Bool :=
  returnData.value.isEmpty

/-- Modelled from the spec: the decoded reason string of an Error(string)
payload; only called after isErrorReturnData. -/
def ReturnData.decodeError (returnData : ReturnData) : String :=
  (decodeAbiString (returnData.value.drop 4)).getD ""

/-- Modelled from the spec: the decoded code of a Panic(uint256) payload;
only called after isPanicReturnData. -/
def ReturnData.decodePanic (returnData : ReturnData) : Nat :=
  (decodeAbiUint (returnData.value.drop 4)).getD 0

/-- The classifier output of spec section 4.1, used to state the claims
about message synthesis. -/
inductive ReturnDataClassification where
  | encodedError (reason : String)
  | encodedPanic (code : Nat)
  | empty
  | unrecognized (raw : List Nat)
deriving DecidableEq

/-- The return-data classifier exactly as spec section 4.1 words it:
selector dispatch, ABI decode, decoding failures treated as unrecognized. -/
def classifyReturnData (bs : List Nat) : ReturnDataClassification :=
  if bs.take 4 = ERROR_SELECTOR then
    match decodeAbiString (bs.drop 4) with
    | some s => ReturnDataClassification.encodedError s
    | none => ReturnDataClassification.unrecognized bs
  else if bs.take 4 = PANIC_SELECTOR then
    match decodeAbiUint (bs.drop 4) with
    | some code => ReturnDataClassification.encodedPanic code
    | none => ReturnDataClassification.unrecognized bs
  else if bs.isEmpty then ReturnDataClassification.empty
  else ReturnDataClassification.unrecognized bs

/-! ## Trace frames (solidity-stack-trace.js is not under src: the variant
shapes are modelled from spec section 3 and the fields the translated code
reads; the fixed labels are modelled from spec section 4.4) -/

/-- Modelled from the spec: a source reference locator
(file, contract, optional function, optional line). -/
structure SourceReference where
  sourceName : String
  contract : String
  function : Option String
  line : Option Nat
deriving DecidableEq

/-- Modelled from the spec: the fixed constructor label. -/
def CONSTRUCTOR_FUNCTION_NAME : String := "constructor"

/-- Modelled from the spec: the fixed precompile label. -/
def PRECOMPILE_FUNCTION_NAME : String := "<precompile>"

/-- Modelled from the spec: the fixed unknown-function label. -/
def UNKNOWN_FUNCTION_NAME : String := "<unknown>"

/-- Modelled from the spec: the fixed unrecognized-contract label. -/
def UNRECOGNIZED_CONTRACT_NAME : String := "<UnrecognizedContract>"

/-- Modelled from the spec: the fixed unrecognized-function label. -/
def UNRECOGNIZED_FUNCTION_NAME : String := "<unrecognized-selector>"

/-- The closed TraceFrame taxonomy: one constructor per
StackTraceEntryType tag, each carrying the fields the translated code
reads for that tag (spec section 3). -/
inductive SolidityStackTraceEntry where
  | callstackEntry (sourceReference : SourceReference)
  | unrecognizedCreateCallstackEntry
  | unrecognizedContractCallstackEntry (address : List Nat)
  | precompileError (precompile : Nat)
  | revertError (returnData : List Nat) (isInvalidOpcodeError : Bool)
      (sourceReference : SourceReference)
  | panicError (errorCode : Nat) (sourceReference : Option SourceReference)
  | customError (message : String) (sourceReference : SourceReference)
  | functionNotPayableError (value : Nat) (sourceReference : SourceReference)
  | invalidParamsError (sourceReference : SourceReference)
  | fallbackNotPayableError (value : Nat) (sourceReference : SourceReference)
  | fallbackNotPayableAndNoReceiveError (value : Nat) (sourceReference : SourceReference)
  | unrecognizedFunctionWithoutFallbackError (sourceReference : SourceReference)
  | missingFallbackOrReceiveError (sourceReference : SourceReference)
  | returndataSizeError (sourceReference : SourceReference)
  | noncontractAccountCalledError (sourceReference : SourceReference)
  | callFailedError (sourceReference : SourceReference)
  | directLibraryCallError (sourceReference : SourceReference)
  | unrecognizedCreateError (returnData : List Nat) (isInvalidOpcodeError : Bool)
  | unrecognizedContractError (address : List Nat) (returnData : List Nat)
      (isInvalidOpcodeError : Bool)
  | internalFunctionCallstackEntry (pc : Nat) (sourceReference : SourceReference)
  | contractCallRunOutOfGasError (sourceReference : Option SourceReference)
  | otherExecutionError (sourceReference : Option SourceReference)
  | contractTooLargeError (sourceReference : Option SourceReference)
  | unmappedSolc063RevertError (sourceReference : Option SourceReference)
deriving DecidableEq

/-- A trace is an ordered sequence of frames. -/
def SolidityStackTrace := List SolidityStackTraceEntry

/-! ## SolidityCallSite (src/unnamed/part_002 lines 312 to 426) -/

/-- The synthetic call-site of the source: the four stored fields, absent
modelled as none. -/
structure SolidityCallSite where
  sourceName : Option String
  contract : Option String
  functionName : Option String
  line : Option Nat
deriving DecidableEq

/-- Source: getFileName returns the stored source name, or the string
unknown when absent. -/
def SolidityCallSite.getFileName (cs : SolidityCallSite) : String :=
  cs.sourceName.getD "unknown"

/-- Source: getFunctionName returns the stored function name only for a
top-level site (no contract); otherwise null, modelled as none. -/
def SolidityCallSite.getFunctionName (cs : SolidityCallSite) : Option String :=
  match cs.contract with
  | none => cs.functionName
  | some _ => none

/-- Source: getMethodName returns the stored function name only when a
contract is present; otherwise null, modelled as none. -/
def SolidityCallSite.getMethodName (cs : SolidityCallSite) : Option String :=
  match cs.contract with
  | some _ => cs.functionName
  | none => none

/-- Source: getLineNumber returns the stored line or null. -/
def SolidityCallSite.getLineNumber (cs : SolidityCallSite) : Option Nat :=
  cs.line

/-- Source: getTypeName returns the stored contract or null. -/
def SolidityCallSite.getTypeName (cs : SolidityCallSite) : Option String :=
  cs.contract

/-- Source: getScriptNameOrSourceURL returns the empty string. -/
def SolidityCallSite.getScriptNameOrSourceURL (_cs : SolidityCallSite) : String :=
  ""

/-! ## Message synthesizer (src/unnamed/part_002 lines 182 to 284) -/

/-- Source: getMessageFromLastStackTraceEntry. The switch of the source is
not exhaustive: the four callstack-entry variants fall through and the
function returns undefined, modelled as none. -/
def getMessageFromLastStackTraceEntry :
    SolidityStackTraceEntry → Option String
  | .precompileError precompile =>
      some ("Transaction reverted: call to precompile " ++ toString precompile ++ " failed")
  | .functionNotPayableError value _ =>
      some ("Transaction reverted: non-payable function was called with value "
        ++ toString value)
  | .invalidParamsError _ =>
      some "Transaction reverted: function was called with incorrect parameters"
  | .fallbackNotPayableError value _ =>
      some ("Transaction reverted: fallback function is not payable and was called with value "
        ++ toString value)
  | .fallbackNotPayableAndNoReceiveError value _ =>
      some ("Transaction reverted: there's no receive function, fallback function is not payable and was called with value "
        ++ toString value)
  | .unrecognizedFunctionWithoutFallbackError _ =>
      some "Transaction reverted: function selector was not recognized and there's no fallback function"
  | .missingFallbackOrReceiveError _ =>
      some "Transaction reverted: function selector was not recognized and there's no fallback nor receive function"
  | .returndataSizeError _ =>
      some "Transaction reverted: function returned an unexpected amount of data"
  | .noncontractAccountCalledError _ =>
      some "Transaction reverted: function call to a non-contract account"
  | .callFailedError _ =>
      some "Transaction reverted: function call failed to execute"
  | .directLibraryCallError _ =>
      some "Transaction reverted: library was called directly"
  | .unrecognizedCreateError returnDataBytes isInvalidOpcodeError =>
      let returnData := ReturnData.mk returnDataBytes
      some (if returnData.isErrorReturnData then
          "VM Exception while processing transaction: reverted with reason string '"
            ++ returnData.decodeError ++ "'"
        else if returnData.isPanicReturnData then
          "VM Exception while processing transaction: "
            ++ panicErrorCodeToMessage returnData.decodePanic
        else if !returnData.isEmpty then
          "VM Exception while processing transaction: reverted with an unrecognized custom error (return data: 0x"
            ++ hexOfBytes returnData.value ++ ")"
        else if isInvalidOpcodeError then
          "VM Exception while processing transaction: invalid opcode"
        else "Transaction reverted without a reason string")
  | .unrecognizedContractError _ returnDataBytes isInvalidOpcodeError =>
      let returnData := ReturnData.mk returnDataBytes
      some (if returnData.isErrorReturnData then
          "VM Exception while processing transaction: reverted with reason string '"
            ++ returnData.decodeError ++ "'"
        else if returnData.isPanicReturnData then
          "VM Exception while processing transaction: "
            ++ panicErrorCodeToMessage returnData.decodePanic
        else if !returnData.isEmpty then
          "VM Exception while processing transaction: reverted with an unrecognized custom error (return data: 0x"
            ++ hexOfBytes returnData.value ++ ")"
        else if isInvalidOpcodeError then
          "VM Exception while processing transaction: invalid opcode"
        else "Transaction reverted without a reason string")
  | .revertError returnDataBytes isInvalidOpcodeError _ =>
      let returnData := ReturnData.mk returnDataBytes
      some (if returnData.isErrorReturnData then
          "VM Exception while processing transaction: reverted with reason string '"
            ++ returnData.decodeError ++ "'"
        else if isInvalidOpcodeError then
          "VM Exception while processing transaction: invalid opcode"
        else "Transaction reverted without a reason string")
  | .panicError errorCode _ =>
      some ("VM Exception while processing transaction: "
        ++ panicErrorCodeToMessage errorCode)
  | .customError message _ =>
      some ("VM Exception while processing transaction: " ++ message)
  | .otherExecutionError _ =>
      some "Transaction reverted and Hardhat couldn't infer the reason."
  | .unmappedSolc063RevertError _ =>
      some "Transaction reverted without a reason string and without a valid sourcemap provided by the compiler. Some line numbers may be off. We strongly recommend upgrading solc and always using revert reasons."
  | .contractTooLargeError _ =>
      some "Transaction reverted: trying to deploy a contract whose code is too large"
  | .contractCallRunOutOfGasError _ =>
      some "Transaction reverted: contract call run out of gas and made the transaction revert"
  | .callstackEntry _ => none
  | .unrecognizedCreateCallstackEntry => none
  | .unrecognizedContractCallstackEntry _ => none
  | .internalFunctionCallstackEntry _ _ => none

/-! ## Call-site synthesizer (src/unnamed/part_002 lines 67 to 180) -/

/-- Source: sourceReferenceToSolidityCallsite. -/
def sourceReferenceToSolidityCallsite (sourceReference : SourceReference) :
    SolidityCallSite :=
  SolidityCallSite.mk
    (some sourceReference.sourceName)
    (some sourceReference.contract)
    (some (match sourceReference.function with
      | some f => f
      | none => UNKNOWN_FUNCTION_NAME))
    sourceReference.line

/-- Source: encodeStackTraceEntry; total over the closed taxonomy (the
switch of the source is exhaustive). -/
def encodeStackTraceEntry : SolidityStackTraceEntry → SolidityCallSite
  | .unrecognizedFunctionWithoutFallbackError sourceReference
  | .missingFallbackOrReceiveError sourceReference =>
      sourceReferenceToSolidityCallsite
        { sourceReference with function := some UNRECOGNIZED_FUNCTION_NAME }
  | .callstackEntry sourceReference
  | .revertError _ _ sourceReference
  | .customError _ sourceReference
  | .functionNotPayableError _ sourceReference
  | .invalidParamsError sourceReference
  | .fallbackNotPayableError _ sourceReference
  | .fallbackNotPayableAndNoReceiveError _ sourceReference
  | .returndataSizeError sourceReference
  | .noncontractAccountCalledError sourceReference
  | .callFailedError sourceReference
  | .directLibraryCallError sourceReference =>
      sourceReferenceToSolidityCallsite sourceReference
  | .unrecognizedCreateCallstackEntry =>
      SolidityCallSite.mk none (some UNRECOGNIZED_CONTRACT_NAME)
        (some CONSTRUCTOR_FUNCTION_NAME) none
  | .unrecognizedContractCallstackEntry address =>
      SolidityCallSite.mk (some (bytesToHexString address))
        (some UNRECOGNIZED_CONTRACT_NAME) (some UNKNOWN_FUNCTION_NAME) none
  | .precompileError precompile =>
      SolidityCallSite.mk none
        (some ("<PrecompileContract " ++ toString precompile ++ ">"))
        (some PRECOMPILE_FUNCTION_NAME) none
  | .unrecognizedCreateError _ _ =>
      SolidityCallSite.mk none (some UNRECOGNIZED_CONTRACT_NAME)
        (some CONSTRUCTOR_FUNCTION_NAME) none
  | .unrecognizedContractError address _ _ =>
      SolidityCallSite.mk (some (bytesToHexString address))
        (some UNRECOGNIZED_CONTRACT_NAME) (some UNKNOWN_FUNCTION_NAME) none
  | .internalFunctionCallstackEntry pc sourceReference =>
      SolidityCallSite.mk (some sourceReference.sourceName)
        (some sourceReference.contract) (some ("internal@" ++ toString pc)) none
  | .contractCallRunOutOfGasError sourceReference =>
      match sourceReference with
      | some ref => sourceReferenceToSolidityCallsite ref
      | none =>
          SolidityCallSite.mk none (some UNRECOGNIZED_CONTRACT_NAME)
            (some UNKNOWN_FUNCTION_NAME) none
  | .otherExecutionError sourceReference
  | .contractTooLargeError sourceReference
  | .panicError _ sourceReference
  | .unmappedSolc063RevertError sourceReference =>
      match sourceReference with
      | none =>
          SolidityCallSite.mk none (some UNRECOGNIZED_CONTRACT_NAME)
            (some UNKNOWN_FUNCTION_NAME) none
      | some ref => sourceReferenceToSolidityCallsite ref

/-! ## Stack-trace encoder (src/unnamed/part_002 lines 23 to 65)

The encoder temporarily replaces the process-wide stack-rendering hook
(Error.prepareStackTrace). The hook slot is modelled explicitly: noHook is
the platform default (the slot holds undefined), user is an arbitrary
previously installed hook, and encoderHook is the closure the encoder
installs, capturing the previously installed hook, the trace and the
optional replacement native stack. -/

/-- An element of a rendered stack: a synthesized Solidity call-site or a
native platform frame (opaque, identified by a number). -/
inductive StackElem where
  | solidity (callsite : SolidityCallSite)
  | native (id : Nat)
deriving DecidableEq

/-- The value of the process-wide Error.prepareStackTrace slot. -/
inductive PrepareHook where
  | noHook
  | user (id : Nat)
  | encoderHook (prev : PrepareHook) (stackTrace : List SolidityStackTraceEntry)
      (previousStack : Option (List Nat))
deriving DecidableEq

/-- The diagnostic error object of the source; its distinguishing fields are
the message and the stored trace. -/
structure SolidityError where
  message : String
  stackTrace : List SolidityStackTraceEntry
deriving DecidableEq

/-- Calling a hook slot value as a function, as the body of the installed
closure does with the captured previous hook. Calling the undefined slot
value raises (the source applies a non-null assertion to it), modelled as
an error result. The closure of the encoder replaces the incoming stack
with the captured previousStack when one was supplied, otherwise drops the
first native frame, then prepends one synthesized call-site per trace entry
and delegates to the captured previous hook. -/
def callHookFn : PrepareHook → List StackElem → Except Unit (List StackElem)
  | .noHook, _ => Except.error ()
  | .user _, stack => Except.ok stack
  | .encoderHook prev stackTrace previousStack, stack =>
      let stack1 := match previousStack with
        | some s => s.map StackElem.native
        | none => stack.drop 1
      let stack2 := stackTrace.foldl
        (fun acc entry => StackElem.solidity (encodeStackTraceEntry entry) :: acc) stack1
      callHookFn prev stack2

/-- Forcing the textual stack to materialize: the platform invokes the
currently installed hook on its captured native frames; with no hook
installed it renders them itself without raising. -/
def materializeStack (hook : PrepareHook) (nativeStack : List Nat) :
    Except Unit (List StackElem) :=
  match hook with
  | .noHook => Except.ok (nativeStack.map StackElem.native)
  | h => callHookFn h (nativeStack.map StackElem.native)

/-- Source: encodeSolidityStackTrace, as a state-passing function over the
hook slot. It saves the installed hook, installs its closure, synthesizes
the message from the last frame (on an empty trace the source reads the
type field of undefined, which raises), constructs the SolidityError,
forces the stack to materialize and only then, on the straight-line path,
restores the saved hook; a raise while materializing leaves the closure
installed, as the source has no try/finally around the forcing. Returns the
result (or the raise) paired with the final hook slot value. -/
def encodeSolidityStackTrace (fallbackMessage : String)
    (stackTrace : List SolidityStackTraceEntry)
    (previousStack : Option (List Nat)) (hook : PrepareHook)
    (nativeStack : List Nat) :
    Except Unit SolidityError × PrepareHook :=
  let previousPrepareStackTrace := hook
  let installed := PrepareHook.encoderHook previousPrepareStackTrace stackTrace previousStack
  match stackTrace.getLast? with
  | none => (Except.error (), installed)
  | some lastEntry =>
      let msg := getMessageFromLastStackTraceEntry lastEntry
      let solidityError : SolidityError :=
        { message := match msg with
            | some m => m
            | none => fallbackMessage,
          stackTrace := stackTrace }
      match materializeStack installed nativeStack with
      | Except.error e => (Except.error e, installed)
      | Except.ok _ => (Except.ok solidityError, previousPrepareStackTrace)

/-! ## Build-result validator (src/unnamed/part_001 lines 194 to 232) -/

/-- The tag of a per-file build result (FileBuildResultType of the
build-system types, which are not under src; tags per spec section 3). -/
inductive FileBuildResultType where
  | cacheHit
  | buildSuccess
  | buildFailed
deriving DecidableEq

/-- Modelled from the spec: a per-file build result. The translated
aggregator reads buildId and contractArtifactsGenerated off every
successful result, so both successful tags carry them. -/
inductive FileBuildResult where
  | cacheHit (buildId : String) (contractArtifactsGenerated : List String)
  | buildSuccess (buildId : String) (contractArtifactsGenerated : List String)
  | buildFailed
deriving DecidableEq

/-- The tag of a result. -/
def FileBuildResult.type : FileBuildResult → FileBuildResultType
  | .cacheHit _ _ => FileBuildResultType.cacheHit
  | .buildSuccess _ _ => FileBuildResultType.buildSuccess
  | .buildFailed => FileBuildResultType.buildFailed

/-- Modelled from the spec: a JobCreationFailure carries
reason, rootFilePath and buildProfile (the concrete type lives in the
build-system types, not under src; its formatted reason string is the
reason field here). -/
structure CompilationJobCreationError where
  reason : String
  rootFilePath : String
  buildProfile : String
deriving DecidableEq

/-- A whole-build outcome: a per-file map (association list in the map's
iteration order) or a single job-creation failure. -/
inductive SolidityBuildResults where
  | results (entries : List (String × FileBuildResult))
  | jobCreationError (e : CompilationJobCreationError)

/-- The typed failures thrown by the validator. -/
inductive HardhatError where
  | compilationJobCreationError (reason : String) (rootFilePath : String)
      (buildProfile : String)
  | buildFailed
deriving DecidableEq

/-- Source: throwIfSolidityBuildFailed. A JobCreationFailure throws a
CompilationJobCreationError carrying its fields; a map with any BuildFailed
entry throws the generic BuildFailed error; otherwise the function returns
(the source narrows the type of the same, unmodified map). -/
def throwIfSolidityBuildFailed : SolidityBuildResults → Except HardhatError Unit
  | .jobCreationError e =>
      Except.error (HardhatError.compilationJobCreationError
        e.reason e.rootFilePath e.buildProfile)
  | .results entries =>
      let sucessful := (entries.map Prod.snd).all fun r =>
        r.type == FileBuildResultType.cacheHit
          || r.type == FileBuildResultType.buildSuccess
      if !sucessful then Except.error HardhatError.buildFailed
      else Except.ok ()

/-! ## Artifact aggregator (src/unnamed/part_001 lines 239 to 272) -/

/-- A successful per-file result (the map value type after validation,
which excludes BuildFailed). -/
inductive SuccessfulFileBuildResult where
  | cacheHit (buildId : String) (contractArtifactsGenerated : List String)
  | buildSuccess (buildId : String) (contractArtifactsGenerated : List String)
deriving DecidableEq

/-- The build id of a successful result. -/
def SuccessfulFileBuildResult.buildId : SuccessfulFileBuildResult → String
  | .cacheHit buildId _ => buildId
  | .buildSuccess buildId _ => buildId

/-- The generated-artifact paths of a successful result. -/
def SuccessfulFileBuildResult.contractArtifactsGenerated :
    SuccessfulFileBuildResult → List String
  | .cacheHit _ paths => paths
  | .buildSuccess _ paths => paths

/-- A JSON document, as far as the aggregator needs one: the parsed ABI of
an artifact file, re-serialized when the record is built. -/
inductive Json where
  | null
  | bool (b : Bool)
  | num (n : Int)
  | str (s : String)
  | arr (elems : List Json)
  | obj (fields : List (String × Json))

mutual

/-- Modelled from the spec: JSON.stringify over the parsed ABI value
(string escaping elided; the claims treat the serialization symbolically). -/
def Json.serialize : Json → String
  | .null => "null"
  | .bool b => if b then "true" else "false"
  | .num n => toString n
  | .str s => "\"" ++ s ++ "\""
  | .arr elems => "[" ++ Json.serializeElems elems ++ "]"
  | .obj fields => "\x7b" ++ Json.serializeFields fields ++ "\x7d"

/-- Comma-separated serialization of array elements. -/
def Json.serializeElems : List Json → String
  | [] => ""
  | [j] => Json.serialize j
  | j :: rest => Json.serialize j ++ "," ++ Json.serializeElems rest

/-- Comma-separated serialization of object fields. -/
def Json.serializeFields : List (String × Json) → String
  | [] => ""
  | [(k, v)] => "\"" ++ k ++ "\":" ++ Json.serialize v
  | (k, v) :: rest =>
      "\"" ++ k ++ "\":" ++ Json.serialize v ++ "," ++ Json.serializeFields rest

end

/-- The shape of a generated artifact file (types/artifacts.js, not under
src): the fields the aggregator reads. -/
structure HardhatArtifact where
  contractName : String
  abi : Json
  bytecode : String
  deployedBytecode : String

/-- The shape of a build-metadata file: the field the aggregator reads. -/
structure BuildInfo where
  solcVersion : String

/-- The artifact identifier of the aggregated record. -/
structure EdrArtifactId where
  name : String
  solcVersion : String
  source : String
deriving DecidableEq

/-- The contract payload of the aggregated record. -/
structure EdrContract where
  abi : String
  bytecode : String
  deployedBytecode : String
deriving DecidableEq

/-- The aggregated artifact record. -/
structure EdrArtifact where
  id : EdrArtifactId
  contract : EdrContract
deriving DecidableEq

/-- Modelled from the spec: the read-json-by-path capability behind the
file reads of the aggregator (readJsonFile is not under src); a path not in
the store fails the read. -/
structure FileSystem where
  artifactFiles : String → Option HardhatArtifact
  buildInfoFiles : String → Option BuildInfo

/-- Modelled from the spec: the build-metadata path
artifactsRoot/build-info/buildId.json. -/
def buildInfoPath (artifactsRootPath buildId : String) : String :=
  artifactsRootPath ++ "/build-info/" ++ buildId ++ ".json"

/-- One iteration of the inner loop of getArtifacts: read the artifact file
and the build-metadata file and join them into a record; a failed read is
fatal, as in the source. -/
def readArtifactEntry (fs : FileSystem) (artifactsRootPath source : String)
    (result : SuccessfulFileBuildResult) (artifactPath : String) :
    Except Unit EdrArtifact :=
  match fs.artifactFiles artifactPath with
  | none => Except.error ()
  | some artifact =>
      match fs.buildInfoFiles (buildInfoPath artifactsRootPath result.buildId) with
      | none => Except.error ()
      | some buildInfo =>
          Except.ok
            { id := { name := artifact.contractName,
                      solcVersion := buildInfo.solcVersion,
                      source := source },
              contract := { abi := Json.serialize artifact.abi,
                            bytecode := artifact.bytecode,
                            deployedBytecode := artifact.deployedBytecode } }

/-- The inner loop of getArtifacts over the generated-artifact paths of one
map entry, in the order the compiler reported them. -/
def getArtifactsForResult (fs : FileSystem) (artifactsRootPath source : String)
    (result : SuccessfulFileBuildResult) :
    List String → Except Unit (List EdrArtifact)
  | [] => Except.ok []
  | artifactPath :: rest =>
      match readArtifactEntry fs artifactsRootPath source result artifactPath with
      | Except.error e => Except.error e
      | Except.ok a =>
          match getArtifactsForResult fs artifactsRootPath source result rest with
          | Except.error e => Except.error e
          | Except.ok l => Except.ok (a :: l)

/-- Source: getArtifacts; the push-accumulation of the two nested loops of
the source, iterating the validated map in its iteration order. -/
def getArtifacts (results : List (String × SuccessfulFileBuildResult))
    (artifactsRootPath : String) (fs : FileSystem) :
    Except Unit (List EdrArtifact) :=
  match results with
  | [] => Except.ok []
  | (source, result) :: rest =>
      match getArtifactsForResult fs artifactsRootPath source result
          result.contractArtifactsGenerated with
      | Except.error e => Except.error e
      | Except.ok here =>
          match getArtifacts rest artifactsRootPath fs with
          | Except.error e => Except.error e
          | Except.ok there => Except.ok (here ++ there)

/-- The aggregation as spec section 4.7 words it: one record per
generated-artifact path, joined from the artifact file, the build-metadata
file named by the buildId of the entry and the source path of the entry, in
map order and, within an entry, path order. -/
def specAggregatedArtifacts (results : List (String × SuccessfulFileBuildResult))
    (artifactsRootPath : String) (fs : FileSystem) : List EdrArtifact :=
  results.flatMap fun entry =>
    entry.2.contractArtifactsGenerated.filterMap fun artifactPath =>
      match fs.artifactFiles artifactPath,
          fs.buildInfoFiles (buildInfoPath artifactsRootPath entry.2.buildId) with
      | some artifact, some buildInfo =>
          some { id := { name := artifact.contractName,
                         solcVersion := buildInfo.solcVersion,
                         source := entry.1 },
                 contract := { abi := Json.serialize artifact.abi,
                               bytecode := artifact.bytecode,
                               deployedBytecode := artifact.deployedBytecode } }
      | _, _ => none

/-! ## Test-suite selector (src/unnamed/part_001 lines 279 to 293) -/

/-- Modelled from the spec: the conversion of a candidate path to a path
relative to the project root (path.relative of the node runtime, restricted
to the shapes the selector feeds it). -/
def pathRelative (projectRoot p : String) : String :=
  if (projectRoot ++ "/").isPrefixOf p then p.drop (projectRoot.length + 1) else p

/-- Source: getTestSuiteIds; filters the candidate root paths by the
test-file suffix, makes them relative to the project root, and keeps the
ids of the artifacts whose source is in that set, in artifact order. -/
def getTestSuiteIds (artifacts : List EdrArtifact) (rootFilePaths : List String)
    (projectRoot : String) : List EdrArtifactId :=
  let testSources := (rootFilePaths.filter fun p => p.endsWith ".t.sol").map
    fun p => pathRelative projectRoot p
  (artifacts.map EdrArtifact.id).filter fun id => testSources.contains id.source

/-! ## Concrete samples used by the closed theorems below -/

/-- A concrete source reference used by the closed theorems. -/
def sampleSourceReference : SourceReference :=
  SourceReference.mk "contract.sol" "C" (some "f") (some 1)

/-- A concrete frame with a defined message rule. -/
def sampleInvalidParamsEntry : SolidityStackTraceEntry :=
  SolidityStackTraceEntry.invalidParamsError sampleSourceReference

/-- A concrete ABI encoding of Panic(0x11). -/
def samplePanicReturnData : List Nat :=
  PANIC_SELECTOR ++ (List.replicate 31 0 ++ [0x11])

/-- The call site required by claim C6 for a frame carrying a source
reference, built from the words of the spec: the file, the contract, the
function if present else the fixed unknown-function label, the line. -/
def specSourceReferenceSite (ref : SourceReference) : SolidityCallSite :=
  SolidityCallSite.mk (some ref.sourceName) (some ref.contract)
    (some (ref.function.getD UNKNOWN_FUNCTION_NAME)) ref.line

/-- A concrete injected content store for the aggregation witness. -/
def sampleFs : FileSystem where
  artifactFiles := fun p =>
    if p = "artifacts/Foo.json" then
      some { contractName := "Foo", abi := Json.arr [],
             bytecode := "0x60", deployedBytecode := "0x60" }
    else none
  buildInfoFiles := fun p =>
    if p = "root/build-info/b1.json" then some { solcVersion := "0.8.24" }
    else none

/-- A concrete validated results map for the aggregation witness. -/
def sampleResults : List (String × SuccessfulFileBuildResult) :=
  [("contracts/Foo.sol",
    SuccessfulFileBuildResult.buildSuccess "b1" ["artifacts/Foo.json"])]

/-! ## Helper lemmas -/

/-- A concatenation whose left part is non-empty is non-empty. -/
theorem stringAppend_ne_empty (a b : String) (h : a ≠ "") : a ++ b ≠ "" := by
  intro hab
  apply h
  apply String.ext
  have hd := congrArg String.data hab
  rw [String.data_append] at hd
  simp only [List.append_eq_nil] at hd
  exact hd.1

/-- The source-reference rule of the call-site synthesizer produces exactly
the site the spec describes. -/
theorem sourceReferenceToSolidityCallsite_eq_spec (ref : SourceReference) :
    sourceReferenceToSolidityCallsite ref = specSourceReferenceSite ref := by
  obtain ⟨s, c, f, l⟩ := ref
  cases f <;> rfl

/-! ## Claim theorems -/

/-- C1: the claim says the process-wide rendering hook is restored after
every call, even one that raises while the textual stack materializes. The
source restores the hook on the straight-line path only (no try/finally),
so a call made while no previous hook is installed — the platform default,
under which the closure's delegation to the captured previous hook raises —
returns the raise and leaves the encoder's closure installed. -/
theorem c1_hook_not_restored_on_raise :
    (encodeSolidityStackTrace "fallback message" [sampleInvalidParamsEntry]
      none PrepareHook.noHook []).1 = Except.error ()
  ∧ (encodeSolidityStackTrace "fallback message" [sampleInvalidParamsEntry]
      none PrepareHook.noHook []).2 ≠ PrepareHook.noHook := by
  refine ⟨rfl, ?_⟩
  decide

/-- C3: over a per-file results map, the validator returns normally exactly
when every entry is a cache hit or a build success; one failed entry makes
it throw the generic BuildFailed error however many entries succeeded. The
outcome itself is never modified (the embedding is pure and the source only
narrows the type of the same map). -/
theorem c3_validator_gate (entries : List (String × FileBuildResult)) :
    (throwIfSolidityBuildFailed (SolidityBuildResults.results entries) = Except.ok ()
      ↔ ∀ pr ∈ entries, pr.2.type = FileBuildResultType.cacheHit
          ∨ pr.2.type = FileBuildResultType.buildSuccess)
  ∧ ((∃ pr ∈ entries, pr.2.type = FileBuildResultType.buildFailed) →
      throwIfSolidityBuildFailed (SolidityBuildResults.results entries)
        = Except.error HardhatError.buildFailed) := by
  set b := (entries.map Prod.snd).all (fun r =>
    r.type == FileBuildResultType.cacheHit
      || r.type == FileBuildResultType.buildSuccess) with hb
  have hdef : throwIfSolidityBuildFailed (SolidityBuildResults.results entries)
      = if !b then Except.error HardhatError.buildFailed else Except.ok () := by
    simp [throwIfSolidityBuildFailed, hb]
  have hall : (b = true)
      ↔ ∀ pr ∈ entries, pr.2.type = FileBuildResultType.cacheHit
          ∨ pr.2.type = FileBuildResultType.buildSuccess := by
    rw [hb]
    simp [List.all_eq_true]
    exact ⟨fun h a c hac => h c a hac, fun h x y hyx => h y x hyx⟩
  cases hB : b with
  | true =>
      have hok : throwIfSolidityBuildFailed (SolidityBuildResults.results entries)
          = Except.ok () := by rw [hdef, hB]; rfl
      have hforall := hall.mp hB
      refine ⟨⟨fun _ => hforall, fun _ => hok⟩, ?_⟩
      rintro ⟨pr, hmem, hfail⟩
      exfalso
      rcases hforall pr hmem with h | h <;> rw [hfail] at h <;> exact
        FileBuildResultType.noConfusion h
  | false =>
      have herr : throwIfSolidityBuildFailed (SolidityBuildResults.results entries)
          = Except.error HardhatError.buildFailed := by rw [hdef, hB]; rfl
      refine ⟨⟨fun hok2 => ?_, fun hforall => ?_⟩, fun _ => herr⟩
      · rw [herr] at hok2
        exact Except.noConfusion hok2
      · exfalso
        have hbt := hall.mpr hforall
        rw [hB] at hbt
        exact Bool.noConfusion hbt

/-- C4: a job-creation failure makes the validator throw a
CompilationJobCreationError carrying exactly the reason, root file path and
build profile of the input. -/
theorem c4_job_creation_error (reason rootFilePath buildProfile : String) :
    throwIfSolidityBuildFailed (SolidityBuildResults.jobCreationError
      (CompilationJobCreationError.mk reason rootFilePath buildProfile))
      = Except.error (HardhatError.compilationJobCreationError
          reason rootFilePath buildProfile) := rfl

/-- C8: message synthesis is total over the closed taxonomy (the embedding
is a total function and every operation it calls is total), and it yields
an absent message — so the caller's fallback applies — exactly for the four
frame variants the source's non-exhaustive switch has no rule for. -/
theorem c8_message_totality (e : SolidityStackTraceEntry) :
    getMessageFromLastStackTraceEntry e = none
      ↔ ((∃ ref, e = SolidityStackTraceEntry.callstackEntry ref)
        ∨ e = SolidityStackTraceEntry.unrecognizedCreateCallstackEntry
        ∨ (∃ address, e = SolidityStackTraceEntry.unrecognizedContractCallstackEntry address)
        ∨ (∃ pc ref, e = SolidityStackTraceEntry.internalFunctionCallstackEntry pc ref)) := by
  cases e <;> simp [getMessageFromLastStackTraceEntry]

/-- C10 counterexample: the claim says every absent field renders through
its accessor as a fixed non-empty placeholder string; but on a site with an
absent contract the type-name accessor renders null (modelled none), not a
string at all. -/
theorem c10_counterexample :
    (SolidityCallSite.mk none none none none).contract = none
  ∧ ¬ ∃ s : String, s ≠ ""
      ∧ (SolidityCallSite.mk none none none none).getTypeName = some s := by
  refine ⟨rfl, ?_⟩
  rintro ⟨s, -, hs⟩
  exact Option.noConfusion hs

/-- C10 amended: only the file-name accessor substitutes a placeholder — an
absent file name renders as the fixed non-empty "unknown" label; the other
accessors render an absent field as null (modelled none), and no absent
field ever renders as an empty string. -/
theorem c10_accessor_placeholders (cs : SolidityCallSite) :
    (cs.sourceName = none → cs.getFileName = "unknown" ∧ cs.getFileName ≠ "")
  ∧ (cs.contract = none → cs.getTypeName = none)
  ∧ (cs.line = none → cs.getLineNumber = none)
  ∧ (cs.functionName = none →
      cs.getFunctionName = none ∧ cs.getMethodName = none) := by
  obtain ⟨sn, c, f, l⟩ := cs
  refine ⟨?_, ?_, ?_, ?_⟩
  · intro h
    subst h
    have hfn : (SolidityCallSite.mk none c f l).getFileName = "unknown" := rfl
    refine ⟨hfn, ?_⟩
    rw [hfn]
    decide
  · intro h
    subst h
    rfl
  · intro h
    subst h
    rfl
  · intro h
    subst h
    cases c <;> exact ⟨rfl, rfl⟩

/-- C6 counterexample: the internal-call variant carries a source reference
but the synthesizer gives it the synthetic internal function name and no
line, not the function and line of the reference as the claim requires. -/
theorem c6_counterexample :
    encodeStackTraceEntry (SolidityStackTraceEntry.internalFunctionCallstackEntry 5
        (SourceReference.mk "A.sol" "A" (some "f") (some 10)))
      = SolidityCallSite.mk (some "A.sol") (some "A") (some "internal@5") none
  ∧ SolidityCallSite.mk (some "A.sol") (some "A") (some "internal@5") none
      ≠ sourceReferenceToSolidityCallsite
          (SourceReference.mk "A.sol" "A" (some "f") (some 10)) := by
  refine ⟨?_, ?_⟩ <;> decide

/-- C6 amended: for every frame variant that carries a source reference,
other than the internal-call variant (which yields the synthetic
internal function name and an absent line), the synthesizer produces
exactly the site the claim describes, and the two override variants force
the fixed unrecognized-function label regardless of the reference's own
function. -/
theorem c6_source_reference_sites (ref : SourceReference)
    (returnData : List Nat) (flag : Bool) (value code : Nat) (msg : String) :
    encodeStackTraceEntry (SolidityStackTraceEntry.callstackEntry ref)
      = specSourceReferenceSite ref
  ∧ encodeStackTraceEntry (SolidityStackTraceEntry.revertError returnData flag ref)
      = specSourceReferenceSite ref
  ∧ encodeStackTraceEntry (SolidityStackTraceEntry.customError msg ref)
      = specSourceReferenceSite ref
  ∧ encodeStackTraceEntry (SolidityStackTraceEntry.functionNotPayableError value ref)
      = specSourceReferenceSite ref
  ∧ encodeStackTraceEntry (SolidityStackTraceEntry.invalidParamsError ref)
      = specSourceReferenceSite ref
  ∧ encodeStackTraceEntry (SolidityStackTraceEntry.fallbackNotPayableError value ref)
      = specSourceReferenceSite ref
  ∧ encodeStackTraceEntry
        (SolidityStackTraceEntry.fallbackNotPayableAndNoReceiveError value ref)
      = specSourceReferenceSite ref
  ∧ encodeStackTraceEntry (SolidityStackTraceEntry.returndataSizeError ref)
      = specSourceReferenceSite ref
  ∧ encodeStackTraceEntry (SolidityStackTraceEntry.noncontractAccountCalledError ref)
      = specSourceReferenceSite ref
  ∧ encodeStackTraceEntry (SolidityStackTraceEntry.callFailedError ref)
      = specSourceReferenceSite ref
  ∧ encodeStackTraceEntry (SolidityStackTraceEntry.directLibraryCallError ref)
      = specSourceReferenceSite ref
  ∧ encodeStackTraceEntry (SolidityStackTraceEntry.panicError code (some ref))
      = specSourceReferenceSite ref
  ∧ encodeStackTraceEntry (SolidityStackTraceEntry.otherExecutionError (some ref))
      = specSourceReferenceSite ref
  ∧ encodeStackTraceEntry (SolidityStackTraceEntry.contractTooLargeError (some ref))
      = specSourceReferenceSite ref
  ∧ encodeStackTraceEntry (SolidityStackTraceEntry.unmappedSolc063RevertError (some ref))
      = specSourceReferenceSite ref
  ∧ encodeStackTraceEntry (SolidityStackTraceEntry.contractCallRunOutOfGasError (some ref))
      = specSourceReferenceSite ref
  ∧ encodeStackTraceEntry
        (SolidityStackTraceEntry.unrecognizedFunctionWithoutFallbackError ref)
      = specSourceReferenceSite { ref with function := some UNRECOGNIZED_FUNCTION_NAME }
  ∧ encodeStackTraceEntry (SolidityStackTraceEntry.missingFallbackOrReceiveError ref)
      = specSourceReferenceSite { ref with function := some UNRECOGNIZED_FUNCTION_NAME } := by
  have h := sourceReferenceToSolidityCallsite_eq_spec ref
  have h2 := sourceReferenceToSolidityCallsite_eq_spec
    { ref with function := some UNRECOGNIZED_FUNCTION_NAME }
  exact ⟨h, h, h, h, h, h, h, h, h, h, h, h, h, h, h, h, h2, h2⟩

/-- The two selectors differ. -/
theorem ERROR_ne_PANIC : ERROR_SELECTOR ≠ PANIC_SELECTOR := by decide

/-- The two selectors differ, stated the other way around. -/
theorem PANIC_ne_ERROR : PANIC_SELECTOR ≠ ERROR_SELECTOR := by decide

/-- The message block shared by the two unrecognized-frame arms of the
message synthesizer equals the branch the claim states over the classifier. -/
theorem unrecognizedMessage_eq_classify (bs : List Nat) (flag : Bool) :
    (if (ReturnData.mk bs).isErrorReturnData then
        "VM Exception while processing transaction: reverted with reason string '"
          ++ (ReturnData.mk bs).decodeError ++ "'"
      else if (ReturnData.mk bs).isPanicReturnData then
        "VM Exception while processing transaction: "
          ++ panicErrorCodeToMessage (ReturnData.mk bs).decodePanic
      else if !(ReturnData.mk bs).isEmpty then
        "VM Exception while processing transaction: reverted with an unrecognized custom error (return data: 0x"
          ++ hexOfBytes (ReturnData.mk bs).value ++ ")"
      else if flag then "VM Exception while processing transaction: invalid opcode"
      else "Transaction reverted without a reason string")
    = (match classifyReturnData bs with
      | ReturnDataClassification.encodedError r =>
          "VM Exception while processing transaction: reverted with reason string '"
            ++ r ++ "'"
      | ReturnDataClassification.encodedPanic c =>
          "VM Exception while processing transaction: " ++ panicErrorCodeToMessage c
      | ReturnDataClassification.unrecognized raw =>
          "VM Exception while processing transaction: reverted with an unrecognized custom error (return data: 0x"
            ++ hexOfBytes raw ++ ")"
      | ReturnDataClassification.empty =>
          if flag then "VM Exception while processing transaction: invalid opcode"
          else "Transaction reverted without a reason string") := by
  by_cases hE : bs.take 4 = ERROR_SELECTOR
  · cases hD : decodeAbiString (bs.drop 4) with
    | some s =>
        simp [classifyReturnData, hE, hD, ReturnData.isErrorReturnData,
          ReturnData.decodeError]
    | none =>
        have hbs : bs ≠ [] := by
          intro h0
          rw [h0] at hE
          simp [ERROR_SELECTOR] at hE
        have hP : bs.take 4 ≠ PANIC_SELECTOR := by
          rw [hE]
          decide
        simp [classifyReturnData, hE, hD, hP, ReturnData.isErrorReturnData,
          ReturnData.isPanicReturnData, ReturnData.isEmpty, hbs, ERROR_ne_PANIC]
  · by_cases hP : bs.take 4 = PANIC_SELECTOR
    · cases hD : decodeAbiUint (bs.drop 4) with
      | some c =>
          simp [classifyReturnData, hE, hP, hD, ReturnData.isErrorReturnData,
            ReturnData.isPanicReturnData, ReturnData.decodePanic, PANIC_ne_ERROR]
      | none =>
          have hbs : bs ≠ [] := by
            intro h0
            rw [h0] at hP
            simp [PANIC_SELECTOR] at hP
          simp [classifyReturnData, hE, hP, hD, ReturnData.isErrorReturnData,
            ReturnData.isPanicReturnData, ReturnData.isEmpty, hbs, PANIC_ne_ERROR]
    · by_cases hN : bs = []
      · subst hN
        cases flag <;> decide
      · simp [classifyReturnData, hE, hP, hN, ReturnData.isErrorReturnData,
          ReturnData.isPanicReturnData, ReturnData.isEmpty]

/-- The message block of the revert-error arm equals the branch the code
actually takes, stated over the classifier. -/
theorem revertMessage_eq_classify (bs : List Nat) (flag : Bool) :
    (if (ReturnData.mk bs).isErrorReturnData then
        "VM Exception while processing transaction: reverted with reason string '"
          ++ (ReturnData.mk bs).decodeError ++ "'"
      else if flag then "VM Exception while processing transaction: invalid opcode"
      else "Transaction reverted without a reason string")
    = (match classifyReturnData bs with
      | ReturnDataClassification.encodedError r =>
          "VM Exception while processing transaction: reverted with reason string '"
            ++ r ++ "'"
      | _ =>
          if flag then "VM Exception while processing transaction: invalid opcode"
          else "Transaction reverted without a reason string") := by
  by_cases hE : bs.take 4 = ERROR_SELECTOR
  · cases hD : decodeAbiString (bs.drop 4) with
    | some s =>
        simp [classifyReturnData, hE, hD, ReturnData.isErrorReturnData,
          ReturnData.decodeError]
    | none =>
        simp [classifyReturnData, hE, hD, ReturnData.isErrorReturnData]
  · have hErr : (ReturnData.mk bs).isErrorReturnData = false := by
      simp [ReturnData.isErrorReturnData, hE]
    by_cases hP : bs.take 4 = PANIC_SELECTOR
    · cases hD : decodeAbiUint (bs.drop 4) with
      | some c => simp [classifyReturnData, hE, hP, hD, hErr, PANIC_ne_ERROR]
      | none => simp [classifyReturnData, hE, hP, hD, hErr, PANIC_ne_ERROR]
    · by_cases hN : bs.isEmpty
      · simp [classifyReturnData, hE, hP, hN, hErr]
      · simp [classifyReturnData, hE, hP, hN, hErr]

/-- C2 counterexample: the claim applies the five-way classified branching
to revert-error frames too, but on a revert-error frame whose return data
is a well-formed Panic(0x11) encoding the source skips the panic branch and
yields the fixed no-reason-string message instead of the panic description. -/
theorem c2_counterexample :
    getMessageFromLastStackTraceEntry
        (SolidityStackTraceEntry.revertError samplePanicReturnData false
          sampleSourceReference)
      = some "Transaction reverted without a reason string"
  ∧ classifyReturnData samplePanicReturnData
      = ReturnDataClassification.encodedPanic 0x11
  ∧ "Transaction reverted without a reason string"
      ≠ "VM Exception while processing transaction: " ++ panicErrorCodeToMessage 0x11 := by
  refine ⟨?_, ?_, ?_⟩ <;> decide

/-- C2 amended: the five-way classified branching (encoded error, encoded
panic, non-empty unrecognized, empty with the invalid-opcode flag,
otherwise no-reason-string) holds for the unrecognized-contract and
unrecognized-creation error frames; a revert-error frame only distinguishes
an encoded error string, then the invalid-opcode flag, and otherwise yields
the no-reason-string message, whatever the classified return data. -/
theorem c2_return_data_branching (bs addr : List Nat) (flag : Bool)
    (ref : SourceReference) :
    getMessageFromLastStackTraceEntry
        (SolidityStackTraceEntry.unrecognizedCreateError bs flag)
      = some (match classifyReturnData bs with
        | ReturnDataClassification.encodedError r =>
            "VM Exception while processing transaction: reverted with reason string '"
              ++ r ++ "'"
        | ReturnDataClassification.encodedPanic c =>
            "VM Exception while processing transaction: " ++ panicErrorCodeToMessage c
        | ReturnDataClassification.unrecognized raw =>
            "VM Exception while processing transaction: reverted with an unrecognized custom error (return data: 0x"
              ++ hexOfBytes raw ++ ")"
        | ReturnDataClassification.empty =>
            if flag then "VM Exception while processing transaction: invalid opcode"
            else "Transaction reverted without a reason string")
  ∧ getMessageFromLastStackTraceEntry
        (SolidityStackTraceEntry.unrecognizedContractError addr bs flag)
      = some (match classifyReturnData bs with
        | ReturnDataClassification.encodedError r =>
            "VM Exception while processing transaction: reverted with reason string '"
              ++ r ++ "'"
        | ReturnDataClassification.encodedPanic c =>
            "VM Exception while processing transaction: " ++ panicErrorCodeToMessage c
        | ReturnDataClassification.unrecognized raw =>
            "VM Exception while processing transaction: reverted with an unrecognized custom error (return data: 0x"
              ++ hexOfBytes raw ++ ")"
        | ReturnDataClassification.empty =>
            if flag then "VM Exception while processing transaction: invalid opcode"
            else "Transaction reverted without a reason string")
  ∧ getMessageFromLastStackTraceEntry
        (SolidityStackTraceEntry.revertError bs flag ref)
      = some (match classifyReturnData bs with
        | ReturnDataClassification.encodedError r =>
            "VM Exception while processing transaction: reverted with reason string '"
              ++ r ++ "'"
        | _ =>
            if flag then "VM Exception while processing transaction: invalid opcode"
            else "Transaction reverted without a reason string") :=
  ⟨congrArg some (unrecognizedMessage_eq_classify bs flag),
   congrArg some (unrecognizedMessage_eq_classify bs flag),
   congrArg some (revertMessage_eq_classify bs flag)⟩

/-- Every message the synthesizer produces is non-empty. -/
theorem getMessage_ne_empty (e : SolidityStackTraceEntry) (s : String)
    (h : getMessageFromLastStackTraceEntry e = some s) : s ≠ "" := by
  cases e <;>
    simp only [getMessageFromLastStackTraceEntry, Option.some.injEq] at h
  all_goals
    first
      | exact Option.noConfusion h
      | (subst h
         try split_ifs
         all_goals repeat' apply stringAppend_ne_empty
         all_goals decide)

/-- C5: whenever the encoder returns a diagnostic error, its message is the
message synthesized from the last frame of the trace when one is defined
and the caller-supplied fallback otherwise; with a non-empty fallback the
message is never empty. -/
theorem c5_encoder_message (fallbackMessage : String)
    (stackTrace : List SolidityStackTraceEntry) (previousStack : Option (List Nat))
    (hook : PrepareHook) (nativeStack : List Nat)
    (lastEntry : SolidityStackTraceEntry) (err : SolidityError)
    (hlast : stackTrace.getLast? = some lastEntry)
    (hok : (encodeSolidityStackTrace fallbackMessage stackTrace previousStack hook
      nativeStack).1 = Except.ok err) :
    err.message = (getMessageFromLastStackTraceEntry lastEntry).getD fallbackMessage
  ∧ (fallbackMessage ≠ "" → err.message ≠ "") := by
  simp only [encodeSolidityStackTrace, hlast] at hok
  cases hmat : materializeStack (PrepareHook.encoderHook hook stackTrace previousStack)
      nativeStack with
  | error e =>
      rw [hmat] at hok
      simp at hok
  | ok v =>
      rw [hmat] at hok
      simp only [Except.ok.injEq] at hok
      subst hok
      constructor
      · cases hm : getMessageFromLastStackTraceEntry lastEntry <;> simp [hm]
      · intro hfb
        cases hm : getMessageFromLastStackTraceEntry lastEntry with
        | none => simpa [hm] using hfb
        | some m =>
            simp only [hm]
            exact getMessage_ne_empty lastEntry m hm

/-- C5 witness: the theorem applied at a concrete one-frame trace under a
previously installed user hook. -/
theorem c5_encoder_message_witness :
    ([sampleInvalidParamsEntry].getLast? = some sampleInvalidParamsEntry)
  ∧ ((encodeSolidityStackTrace "fallback message" [sampleInvalidParamsEntry]
      none (PrepareHook.user 0) []).1
      = Except.ok (SolidityError.mk
          "Transaction reverted: function was called with incorrect parameters"
          [sampleInvalidParamsEntry]))
  ∧ ((SolidityError.mk
        "Transaction reverted: function was called with incorrect parameters"
        [sampleInvalidParamsEntry]).message
      = (getMessageFromLastStackTraceEntry sampleInvalidParamsEntry).getD
          "fallback message"
    ∧ ("fallback message" ≠ ""
        → (SolidityError.mk
            "Transaction reverted: function was called with incorrect parameters"
            [sampleInvalidParamsEntry]).message ≠ "")) :=
  ⟨rfl, rfl,
    c5_encoder_message "fallback message" [sampleInvalidParamsEntry] none
      (PrepareHook.user 0) [] sampleInvalidParamsEntry
      (SolidityError.mk
        "Transaction reverted: function was called with incorrect parameters"
        [sampleInvalidParamsEntry]) rfl rfl⟩

/-- C9: the selector returns exactly the ids of the artifacts whose source
path equals some candidate path with the test-file suffix made relative to
the project root, in the order of the artifacts sequence. -/
theorem c9_test_suite_selection (artifacts : List EdrArtifact)
    (rootFilePaths : List String) (projectRoot : String) :
    (∀ a : EdrArtifactId,
      a ∈ getTestSuiteIds artifacts rootFilePaths projectRoot
        ↔ (a ∈ artifacts.map EdrArtifact.id
            ∧ ∃ p ∈ rootFilePaths, p.endsWith ".t.sol" = true
                ∧ a.source = pathRelative projectRoot p))
  ∧ (getTestSuiteIds artifacts rootFilePaths projectRoot).Sublist
      (artifacts.map EdrArtifact.id) := by
  constructor
  · intro a
    simp only [getTestSuiteIds, List.mem_filter, List.mem_map, List.mem_filter]
    constructor
    · rintro ⟨hmem, hc⟩
      refine ⟨hmem, ?_⟩
      rcases List.mem_map.mp (List.mem_of_elem_eq_true hc) with ⟨p, hp, hrel⟩
      rcases List.mem_filter.mp hp with ⟨hproot, hends⟩
      exact ⟨p, hproot, hends, hrel.symm⟩
    · rintro ⟨hmem, p, hproot, hends, hrel⟩
      refine ⟨hmem, ?_⟩
      apply List.elem_eq_true_of_mem
      apply List.mem_map.mpr
      exact ⟨p, List.mem_filter.mpr ⟨hproot, hends⟩, hrel.symm⟩
  · exact List.filter_sublist _

/-- The inner loop of the aggregator, when every read it performs succeeds,
produces one record per generated-artifact path, in path order. -/
theorem getArtifactsForResult_ok (fs : FileSystem) (root source : String)
    (result : SuccessfulFileBuildResult) (paths : List String)
    (h : ∀ p ∈ paths, (fs.artifactFiles p).isSome = true
      ∧ (fs.buildInfoFiles (buildInfoPath root result.buildId)).isSome = true) :
    getArtifactsForResult fs root source result paths
      = Except.ok (paths.filterMap fun artifactPath =>
          match fs.artifactFiles artifactPath,
              fs.buildInfoFiles (buildInfoPath root result.buildId) with
          | some artifact, some buildInfo =>
              some { id := { name := artifact.contractName,
                             solcVersion := buildInfo.solcVersion,
                             source := source },
                     contract := { abi := Json.serialize artifact.abi,
                                   bytecode := artifact.bytecode,
                                   deployedBytecode := artifact.deployedBytecode } }
          | _, _ => none) := by
  induction paths with
  | nil => rfl
  | cons p ps ih =>
      obtain ⟨ha, hb⟩ := h p (List.mem_cons_self p ps)
      rcases Option.isSome_iff_exists.mp ha with ⟨artifact, hA⟩
      rcases Option.isSome_iff_exists.mp hb with ⟨buildInfo, hB⟩
      have ih2 := ih fun q hq => h q (List.mem_cons_of_mem p hq)
      simp [getArtifactsForResult, readArtifactEntry, hA, hB, ih2,
        List.filterMap_cons]

/-- Unfolding one entry of the spec-side aggregation. -/
theorem specAggregatedArtifacts_cons (e : String × SuccessfulFileBuildResult)
    (rest : List (String × SuccessfulFileBuildResult)) (root : String)
    (fs : FileSystem) :
    specAggregatedArtifacts (e :: rest) root fs
      = (e.2.contractArtifactsGenerated.filterMap fun artifactPath =>
          match fs.artifactFiles artifactPath,
              fs.buildInfoFiles (buildInfoPath root e.2.buildId) with
          | some artifact, some buildInfo =>
              some { id := { name := artifact.contractName,
                             solcVersion := buildInfo.solcVersion,
                             source := e.1 },
                     contract := { abi := Json.serialize artifact.abi,
                                   bytecode := artifact.bytecode,
                                   deployedBytecode := artifact.deployedBytecode } }
          | _, _ => none) ++ specAggregatedArtifacts rest root fs := by
  simp [specAggregatedArtifacts]

/-- C7: when every artifact read and every build-metadata read succeeds,
the aggregator returns exactly the records the spec describes: one per
generated-artifact path, joining the artifact's contract name, the
build-metadata compiler version found at the path derived from the entry's
buildId, the entry's source path, the re-serialized ABI and the two
bytecodes, in map order and, within an entry, in path order. -/
theorem c7_artifact_aggregation (results : List (String × SuccessfulFileBuildResult))
    (artifactsRootPath : String) (fs : FileSystem)
    (h : ∀ entry ∈ results, ∀ p ∈ entry.2.contractArtifactsGenerated,
      (fs.artifactFiles p).isSome = true
        ∧ (fs.buildInfoFiles
            (buildInfoPath artifactsRootPath entry.2.buildId)).isSome = true) :
    getArtifacts results artifactsRootPath fs
      = Except.ok (specAggregatedArtifacts results artifactsRootPath fs) := by
  induction results with
  | nil => rfl
  | cons entry rest ih =>
      obtain ⟨source, result⟩ := entry
      have hinner := getArtifactsForResult_ok fs artifactsRootPath source result
        result.contractArtifactsGenerated
        (fun p hp => h (source, result) (List.mem_cons_self _ _) p hp)
      have hrest := ih fun e he p hp => h e (List.mem_cons_of_mem _ he) p hp
      rw [specAggregatedArtifacts_cons]
      simp [getArtifacts, hinner, hrest]

/-- C7 witness: the theorem applied to a concrete one-entry map and a
concrete injected content store. -/
theorem c7_artifact_aggregation_witness :
    (∀ entry ∈ sampleResults, ∀ p ∈ entry.2.contractArtifactsGenerated,
      (sampleFs.artifactFiles p).isSome = true
        ∧ (sampleFs.buildInfoFiles
            (buildInfoPath "root" entry.2.buildId)).isSome = true)
  ∧ getArtifacts sampleResults "root" sampleFs
      = Except.ok (specAggregatedArtifacts sampleResults "root" sampleFs) :=
  ⟨by decide, c7_artifact_aggregation sampleResults "root" sampleFs (by decide)⟩
